import Mathlib

/-!
Verification of the MonitoringESP firmware sketch (src/src/main.cpp) against its
natural-language specification.  The single-threaded Arduino loop is embedded as
a deterministic step function over an explicit state; the external collaborators
(millis clock, WiFi status, UDP/NTP transport, DHT sensor, HTTP transport) are
supplied as per-iteration inputs.  millis() is modelled as an unbounded monotone
counter; the 32-bit unsigned-long arithmetic inside getNtpTime is modelled with
an explicit modulus 2 ^ 32.
-/

namespace MonitoringESP

set_option maxRecDepth 8192

/-- Sensor value as returned by the DHT library: either a numeric measurement or
the not-a-number marker produced by a failed read.  The firmware performs no
arithmetic on the float payload, so the numeric case is kept abstract. -/
inductive FVal where
  | num (v : Int)
  | nan
deriving DecidableEq

/-- One JSON object appended to the global document by loop
(src/src/main.cpp:272-275): fields timestamp, humidity, temperatureC. -/
structure Reading where
  timestamp : Nat
  humidity : FVal
  temperatureC : FVal
deriving DecidableEq

/-- NTP_PACKET_SIZE (src/src/main.cpp:472). -/
def NTP_PACKET_SIZE : Nat := 48

/-- const int timeZone = 2 (src/src/main.cpp:32). -/
def timeZone : Int := 2

/-- One cell of the receive buffer.  Udp.read fills a byte array, so every cell
is below 256; the packet is modelled as a list of naturals normalised to bytes. -/
def byteAt (pkt : List Nat) (i : Nat) : Nat := pkt.getD i 0 % 256

/-- secsSince1900 as assembled by the four shift-or statements of getNtpTime
(src/src/main.cpp:500-503). -/
def ntpSecsSince1900 (pkt : List Nat) : Nat :=
  ((byteAt pkt 40 <<< 24 ||| byteAt pkt 41 <<< 16) ||| byteAt pkt 42 <<< 8) ||| byteAt pkt 43

/-- The value returned on a successful receive (src/src/main.cpp:504):
secsSince1900 - 2208988800UL + timeZone * SECS_PER_HOUR in 32-bit unsigned-long
arithmetic, SECS_PER_HOUR being 3600. -/
def ntpResult (pkt : List Nat) : Nat :=
  ((ntpSecsSince1900 pkt + 2 ^ 32 - 2208988800) % 2 ^ 32 + (timeZone * 3600).toNat) % 2 ^ 32

/-- One getNtpTime call (src/src/main.cpp:480-509).  The UDP collaborator is
abstracted as the first packet of size at least NTP_PACKET_SIZE made available
during the receive window, with its arrival offset in milliseconds; shorter
packets never pass the size test and never end the wait, so they are elided.
First component: the returned time_t value; second component: the milliseconds
spent inside the bounded receive loop (the full 1500 ms window on failure). -/
def getNtpTime (arrival : Option (Nat × List Nat)) : Nat × Nat :=
  match arrival with
  | some (ta, pkt) =>
      if ta < 1500 ∧ NTP_PACKET_SIZE ≤ pkt.length then (ntpResult pkt, ta) else (0, 1500)
  | none => (0, 1500)

/-- static unsigned int postDelayTime = 60000 (src/src/main.cpp:45). -/
def postDelayTime : Nat := 60000

/-- static unsigned int dhtDelayTime = 4000 (src/src/main.cpp:48). -/
def dhtDelayTime : Nat := 4000

/-- WiFi.status() outcomes the loop distinguishes: WL_CONNECTED; WL_DISCONNECTED,
the only status that triggers initWifi; and any other status (WL_CONNECT_FAILED,
WL_IDLE_STATUS, ...), for which neither the reconnect nor the action branch runs. -/
inductive WifiStatus where
  | connected
  | disconnected
  | other
deriving DecidableEq

/-- initWifi spins in a delay loop until WiFi.status() == WL_CONNECTED
(src/src/main.cpp:418-421), so when it is invoked the status afterwards is
connected; it is invoked only on WL_DISCONNECTED (src/src/main.cpp:259-262). -/
def wifiAfterReconnect : WifiStatus → WifiStatus
  | .disconnected => .connected
  | w => w

/-- Milliseconds consumed by the initWifi call when it happens. -/
def reconnectCost : WifiStatus → Nat → Nat
  | .disconnected, c => c
  | _, _ => 0

/-- Inputs of one loop iteration: millis() at the first timer check, the WiFi
status seen by each block, the NTP response (if any) for the getNtpTime call,
the DHT values, the time the reconnect / sensor-and-file work / POST consume,
and the HTTP response code delivered by the transport. -/
structure TickEnv where
  now : Nat
  wifi1 : WifiStatus
  reconnect1 : Nat
  ntpArrival : Option (Nat × List Nat)
  humidity : FVal
  temperature : FVal
  sensorBlockTime : Nat
  wifi2 : WifiStatus
  reconnect2 : Nat
  httpCode : Int
  postBlockTime : Nat
deriving DecidableEq

/-- The static locals of loop (last_time, post_last_time,
src/src/main.cpp:253-254) together with the global JSON document doc
(src/src/main.cpp:58) and the persisted file /data/data.json, both as ordered
lists of readings. -/
structure LoopState where
  last_time : Nat
  post_last_time : Nat
  doc : List Reading
  dataFile : List Reading
deriving DecidableEq

/-- sendData (src/src/main.cpp:357-379): serializes the global doc and POSTs it;
the HTTP response code comes from the transport.  It neither clears nor rewrites
doc or the data file.  Result: (response code, serialized payload). -/
def sendData (doc : List Reading) (transportCode : Int) : Int × List Reading :=
  (transportCode, doc)

/-- Observable outcome of the first if-block of loop. -/
structure SensorBlockOut where
  state : LoopState
  ntpWait : Option Nat
  sensorReadAt : Option Nat
  appended : Option Reading
  fileWritten : Option (List Reading)
  tEnd : Nat
deriving DecidableEq

/-- First if-block of loop (src/src/main.cpp:257-294).  When the sample timer
has elapsed: reconnect if disconnected; if then connected, call getNtpTime,
read the DHT (at monotonic time tReconnectDone + ntp wait), append one object to
doc and overwrite /data/data.json with the whole document; in every fired case
last_time is set to millis() at the end of the block.  tEnd is millis() when the
block is left.  This variant idealizes the document as unbounded, which is exact
for states far below the 2048-byte pool capacity of doc (src/src/main.cpp:58);
sensorBlockPool below refines it with the pool bound, under which
createNestedObject silently fails once the pool is exhausted. -/
def sensorBlock (env : TickEnv) (s : LoopState) : SensorBlockOut :=
  if env.now - s.last_time > dhtDelayTime then
    let t1 := env.now + reconnectCost env.wifi1 env.reconnect1
    if wifiAfterReconnect env.wifi1 = .connected then
      let ntp := getNtpTime env.ntpArrival
      let readAt := t1 + ntp.2
      let reading : Reading := ⟨ntp.1, env.humidity, env.temperature⟩
      let doc2 := s.doc ++ [reading]
      let tEnd := readAt + env.sensorBlockTime
      ⟨{ s with last_time := tEnd, doc := doc2, dataFile := doc2 },
        some ntp.2, some readAt, some reading, some doc2, tEnd⟩
    else
      ⟨{ s with last_time := t1 }, none, none, none, none, t1⟩
  else ⟨s, none, none, none, none, env.now⟩

/-- Observable outcome of the second if-block of loop. -/
structure PostBlockOut where
  state : LoopState
  posted : Option (List Reading)
  httpResult : Option Int
  tEnd : Nat
deriving DecidableEq

/-- Second if-block of loop (src/src/main.cpp:296-317).  When the upload timer
has elapsed: reconnect if disconnected; if then connected, call sendData (the
response code is only printed); in every fired case post_last_time is set to
millis() at the end of the block.  Neither doc nor the data file is touched,
whatever the response code. -/
def postBlock (env : TickEnv) (tNow : Nat) (s : LoopState) : PostBlockOut :=
  if tNow - s.post_last_time > postDelayTime then
    let t1 := tNow + reconnectCost env.wifi2 env.reconnect2
    if wifiAfterReconnect env.wifi2 = .connected then
      let res := sendData s.doc env.httpCode
      let tEnd := t1 + env.postBlockTime
      ⟨{ s with post_last_time := tEnd }, some res.2, some res.1, tEnd⟩
    else ⟨{ s with post_last_time := t1 }, none, none, t1⟩
  else ⟨s, none, none, tNow⟩

/-- Observable outcome of one full loop iteration. -/
structure StepOut where
  state : LoopState
  ntpWait : Option Nat
  sensorReadAt : Option Nat
  appended : Option Reading
  fileWritten : Option (List Reading)
  posted : Option (List Reading)
  httpResult : Option Int
deriving DecidableEq

/-- One iteration of loop (src/src/main.cpp:250-350): the sensor block followed
by the upload block, the second timer check reading millis() after the first
block has consumed its time. -/
def loopStep (env : TickEnv) (s : LoopState) : StepOut :=
  let sb := sensorBlock env s
  let pb := postBlock env sb.tEnd sb.state
  ⟨pb.state, sb.ntpWait, sb.sensorReadAt, sb.appended, sb.fileWritten, pb.posted, pb.httpResult⟩

/-- The fixed memory pool of the global document: DynamicJsonDocument doc(2048)
(src/src/main.cpp:58). -/
def docPoolBytes : Nat := 2048

/-- Pool cost of one reading in ArduinoJson 6 on the 32-bit ESP8266 target:
every value occupies a 16-byte slot, and a reading costs one slot for the array
element plus three slots for its members; the three keys are string literals,
which ArduinoJson links by pointer without copying them into the pool.  Hence
64 bytes per reading. -/
def bytesPerReading : Nat := 64

/-- Readings the 2048-byte pool can hold: 32.  The pool size is an exact
multiple of the per-reading cost, so appends are all-or-nothing: after 32
complete readings the pool is exactly full and the next createNestedObject
fails cleanly. -/
def docCapacity : Nat := docPoolBytes / bytesPerReading

/-- doc.createNestedObject() plus the three member assignments
(src/src/main.cpp:272-275) under the pool bound: while the pool has room the
reading is appended; once the pool is exhausted createNestedObject returns a
null JsonObject and the assignments are silent no-ops, so nothing is appended.
Result: the new document and the object appended, if any. -/
def docAppend (doc : List Reading) (r : Reading) : List Reading × Option Reading :=
  if doc.length < docCapacity then (doc ++ [r], some r) else (doc, none)

/-- Pool-faithful variant of the first if-block of loop
(src/src/main.cpp:257-294): identical to sensorBlock except that the append
goes through docAppend, so a tick that reaches the connected branch with the
pool exhausted reads the sensor and rewrites the file but stores nothing new. -/
def sensorBlockPool (env : TickEnv) (s : LoopState) : SensorBlockOut :=
  if env.now - s.last_time > dhtDelayTime then
    let t1 := env.now + reconnectCost env.wifi1 env.reconnect1
    if wifiAfterReconnect env.wifi1 = .connected then
      let ntp := getNtpTime env.ntpArrival
      let readAt := t1 + ntp.2
      let reading : Reading := ⟨ntp.1, env.humidity, env.temperature⟩
      let ap := docAppend s.doc reading
      let tEnd := readAt + env.sensorBlockTime
      ⟨{ s with last_time := tEnd, doc := ap.1, dataFile := ap.1 },
        some ntp.2, some readAt, ap.2, some ap.1, tEnd⟩
    else
      ⟨{ s with last_time := t1 }, none, none, none, none, t1⟩
  else ⟨s, none, none, none, none, env.now⟩

/-- One iteration of loop with the pool-faithful sensor block. -/
def loopStepPool (env : TickEnv) (s : LoopState) : StepOut :=
  let sb := sensorBlockPool env s
  let pb := postBlock env sb.tEnd sb.state
  ⟨pb.state, sb.ntpWait, sb.sensorReadAt, sb.appended, sb.fileWritten, pb.posted, pb.httpResult⟩

/-- A finite run of pool-faithful loop iterations. -/
def runLoopPool (envs : List TickEnv) (s : LoopState) : LoopState :=
  match envs with
  | [] => s
  | e :: rest => runLoopPool rest (loopStepPool e s).state

/-- Modelled from the spec: the reboot-on-stale-clock watchdog (spec section 4.3,
tick step 3) belongs to a later firmware variant of this repository that is not
under src/; src/src/main.cpp contains no restart logic.  State: monotonic time
of the last successful clock response and whether any sync ever succeeded.  When
no further sync succeeds, lastClockResponseAt keeps its initial value. -/
structure ClockWatch where
  lastClockResponseAt : Nat
  everSynced : Bool
deriving DecidableEq

/-- Modelled from the spec: the example staleness window of 24 hours, in ms. -/
def clockStaleTimeout : Nat := 86400000

/-- Modelled from the spec: the restart condition evaluated on a tick — restart
iff at least one sync ever succeeded and now - lastClockResponseAt exceeds
clockStaleTimeout. -/
def watchdogFires (now : Nat) (w : ClockWatch) : Bool :=
  w.everSynced && decide (now - w.lastClockResponseAt > clockStaleTimeout)

/-- Initial state at boot: both timers zero, document and file empty. -/
def s0 : LoopState := ⟨0, 0, [], []⟩

/-- A tick with the clock unavailable: sample timer long elapsed, WiFi connected
for both blocks, no NTP response within the window, numeric DHT values, upload
timer elapsed as well, transport answering 200. -/
def envNoClock : TickEnv := ⟨70000, .connected, 0, none, .num 55, .num 21, 0, .connected, 0, 200, 0⟩

/- ------------------------------------------------------------------ -/
/- Helper lemmas -/
/- ------------------------------------------------------------------ -/

theorem lor_mul_two_pow (k : Nat) : ∀ a b : Nat, b < 2 ^ k → (a * 2 ^ k ||| b) = a * 2 ^ k + b := by
  induction k with
  | zero =>
    intro a b hb
    have hb0 : b = 0 := Nat.lt_one_iff.mp hb
    subst hb0
    simp
  | succ k ih =>
    intro a b hb
    have h1 : a * 2 ^ (k + 1) = Nat.bit false (a * 2 ^ k) := by
      simp [Nat.bit_val, Nat.pow_succ]
      ring
    have h2 : Nat.bit (decide (b % 2 = 1)) (b >>> 1) = b :=
      Nat.bit_decide_mod_two_eq_one_shiftRight_one b
    have hb2 : b >>> 1 < 2 ^ k := by
      rw [Nat.shiftRight_one]
      have hpow : 2 ^ (k + 1) = 2 * 2 ^ k := by ring
      omega
    rw [h1, ← h2, Nat.lor_bit, Bool.false_or, ih a (b >>> 1) hb2]
    rw [Nat.bit_val, Nat.bit_val, Nat.shiftRight_one]
    rcases Nat.mod_two_eq_zero_or_one b with h | h <;>
      simp [h] <;> omega

theorem byteAt_lt (pkt : List Nat) (i : Nat) : byteAt pkt i < 256 :=
  Nat.mod_lt _ (by norm_num)

/-- The shift-or assembly of getNtpTime equals the weighted big-endian sum of
bytes 40..43. -/
theorem ntpSecsSince1900_eq_sum (pkt : List Nat) :
    ntpSecsSince1900 pkt =
      byteAt pkt 40 * 2 ^ 24 + byteAt pkt 41 * 2 ^ 16 + byteAt pkt 42 * 2 ^ 8 + byteAt pkt 43 := by
  have h41 := byteAt_lt pkt 41
  have h42 := byteAt_lt pkt 42
  have h43 := byteAt_lt pkt 43
  unfold ntpSecsSince1900
  rw [Nat.shiftLeft_eq, Nat.shiftLeft_eq, Nat.shiftLeft_eq]
  rw [lor_mul_two_pow 24 _ _ (by omega)]
  rw [show byteAt pkt 40 * 2 ^ 24 + byteAt pkt 41 * 2 ^ 16 =
      (byteAt pkt 40 * 2 ^ 8 + byteAt pkt 41) * 2 ^ 16 from by ring,
    lor_mul_two_pow 16 _ _ (by omega)]
  rw [show (byteAt pkt 40 * 2 ^ 8 + byteAt pkt 41) * 2 ^ 16 + byteAt pkt 42 * 2 ^ 8 =
      ((byteAt pkt 40 * 2 ^ 8 + byteAt pkt 41) * 2 ^ 8 + byteAt pkt 42) * 2 ^ 8 from by ring,
    lor_mul_two_pow 8 _ _ h43]

/-- The receive wait of getNtpTime never exceeds the 1500 ms window. -/
theorem getNtpTime_wait_le (arrival : Option (Nat × List Nat)) :
    (getNtpTime arrival).2 ≤ 1500 := by
  unfold getNtpTime
  match arrival with
  | none => simp
  | some (ta, pkt) =>
    by_cases h : ta < 1500 ∧ NTP_PACKET_SIZE ≤ pkt.length
    · simp [h]
      omega
    · simp [h]

/- ------------------------------------------------------------------ -/
/- Claim theorems -/
/- ------------------------------------------------------------------ -/

/-- C7: for every received NTP response packet of at least 48 bytes, getNtpTime
returns the big-endian 32-bit integer formed from bytes 40..43 minus the epoch
constant 2208988800 plus timeZone * 3600 seconds, the subtraction being the
32-bit unsigned-long arithmetic of the target (hence the modulus 2 ^ 32 on the
integer formula); and no other packet byte affects the result. -/
theorem C7_ntp_conversion (ta ta2 : Nat) (pkt pkt2 : List Nat)
    (hta : ta < 1500) (hlen : NTP_PACKET_SIZE ≤ pkt.length)
    (hta2 : ta2 < 1500) (hlen2 : NTP_PACKET_SIZE ≤ pkt2.length)
    (hagree : ∀ i, 40 ≤ i → i ≤ 43 → pkt2.getD i 0 = pkt.getD i 0) :
    ((getNtpTime (some (ta, pkt))).1 : Int) =
      (((byteAt pkt 40 * 2 ^ 24 + byteAt pkt 41 * 2 ^ 16 +
          byteAt pkt 42 * 2 ^ 8 + byteAt pkt 43 : Nat) : Int)
        - 2208988800 + timeZone * 3600) % 2 ^ 32 ∧
    (getNtpTime (some (ta2, pkt2))).1 = (getNtpTime (some (ta, pkt))).1 := by
  have hq : (getNtpTime (some (ta, pkt))).1 = ntpResult pkt := by
    simp [getNtpTime, hta, hlen]
  have hq2 : (getNtpTime (some (ta2, pkt2))).1 = ntpResult pkt2 := by
    simp [getNtpTime, hta2, hlen2]
  have hb40 : byteAt pkt2 40 = byteAt pkt 40 := by
    unfold byteAt
    rw [hagree 40 (by norm_num) (by norm_num)]
  have hb41 : byteAt pkt2 41 = byteAt pkt 41 := by
    unfold byteAt
    rw [hagree 41 (by norm_num) (by norm_num)]
  have hb42 : byteAt pkt2 42 = byteAt pkt 42 := by
    unfold byteAt
    rw [hagree 42 (by norm_num) (by norm_num)]
  have hb43 : byteAt pkt2 43 = byteAt pkt 43 := by
    unfold byteAt
    rw [hagree 43 (by norm_num) (by norm_num)]
  constructor
  · rw [hq]
    unfold ntpResult
    rw [ntpSecsSince1900_eq_sum]
    have hle : (2208988800 : Nat) ≤
        byteAt pkt 40 * 2 ^ 24 + byteAt pkt 41 * 2 ^ 16 +
          byteAt pkt 42 * 2 ^ 8 + byteAt pkt 43 + 2 ^ 32 := by omega
    rw [show (timeZone * 3600).toNat = 7200 from rfl]
    rw [show (timeZone : Int) * 3600 = 7200 from rfl]
    push_cast [Nat.cast_sub hle]
    omega
  · rw [hq, hq2]
    unfold ntpResult ntpSecsSince1900
    rw [hb40, hb41, hb42, hb43]

/-- C7 witness: a concrete 48-byte packet whose bytes are all 7, answered 0 ms
into the window. -/
theorem C7_ntp_conversion_witness :
    ((getNtpTime (some (0, List.replicate 48 7))).1 : Int) =
      ((117901063 : Int) - 2208988800 + timeZone * 3600) % 2 ^ 32 := by
  have h := C7_ntp_conversion 0 3 (List.replicate 48 7) (List.replicate 48 7)
    (by norm_num) (by norm_num [NTP_PACKET_SIZE]) (by norm_num) (by norm_num [NTP_PACKET_SIZE])
    (fun i h1 h2 => rfl)
  have hb : (byteAt (List.replicate 48 7) 40 * 2 ^ 24 + byteAt (List.replicate 48 7) 41 * 2 ^ 16 +
      byteAt (List.replicate 48 7) 42 * 2 ^ 8 + byteAt (List.replicate 48 7) 43 : Nat) =
      117901063 := by decide
  rw [hb] at h
  exact h.1

/-- C8 (amended): every getNtpTime call returns within the fixed 1500 ms receive
window, and returns 0 when no 48-byte response arrived inside it; but the
claim that only the very first bring-up blocks is false on this code: loop
invokes getNtpTime on every fired, connected sensor tick, so steady-state ticks
also block on the clock (last conjunct). -/
theorem C8_bounded_wait_every_tick (arrival : Option (Nat × List Nat))
    (ta : Nat) (pkt : List Nat) (env : TickEnv) (s : LoopState)
    (hnq : ¬(ta < 1500 ∧ NTP_PACKET_SIZE ≤ pkt.length))
    (hf : env.now - s.last_time > dhtDelayTime)
    (hw : wifiAfterReconnect env.wifi1 = .connected) :
    (getNtpTime arrival).2 ≤ 1500 ∧
    getNtpTime none = (0, 1500) ∧
    getNtpTime (some (ta, pkt)) = (0, 1500) ∧
    (loopStep env s).ntpWait = some (getNtpTime env.ntpArrival).2 := by
  refine ⟨getNtpTime_wait_le arrival, rfl, ?_, ?_⟩
  · simp [getNtpTime, hnq]
  · simp [loopStep, sensorBlock, hf, hw]

/-- C8 witness: a fired connected tick with an empty receive window waits the
whole 1500 ms and yields 0. -/
theorem C8_bounded_wait_every_tick_witness :
    (getNtpTime (some (2000, List.replicate 48 0))).2 ≤ 1500 ∧
    getNtpTime none = (0, 1500) ∧
    getNtpTime (some (1700, [])) = (0, 1500) ∧
    (loopStep envNoClock s0).ntpWait = some (getNtpTime envNoClock.ntpArrival).2 :=
  C8_bounded_wait_every_tick (some (2000, List.replicate 48 0)) 1700 [] envNoClock s0
    (by norm_num) (by norm_num [envNoClock, s0, dhtDelayTime]) rfl

/-- First bring-up tick of a run: the NTP server answers 10 ms into the window. -/
def envFirstTick : TickEnv :=
  ⟨5000, .connected, 0, some (10, List.replicate 48 0), .num 55, .num 21, 0, .connected, 0, 200, 0⟩

/-- A later steady-state tick: no NTP answer inside the window. -/
def envSecondTick : TickEnv :=
  ⟨20000, .connected, 0, none, .num 55, .num 21, 0, .connected, 0, 200, 0⟩

/-- C8 counterexample: a steady-state tick (the second loop iteration, after
bring-up already obtained the time on the first iteration) still blocks for the
whole 1500 ms receive window inside getNtpTime, refuting the part of the claim
that only the very first bring-up performs the blocking wait. -/
theorem C8_counterexample :
    (loopStep envSecondTick (loopStep envFirstTick s0).state).ntpWait = some 1500 := rfl

/-- C3 (spec-modelled watchdog): with an initial successful sync at monotonic
time T0 and no later sync (so lastClockResponseAt stays T0 and everSynced is
true), the restart condition is false at every instant up to and including
T0 + clockStaleTimeout and true at every later instant: the restart is
triggered at the first tick after T0 + clockStaleTimeout and at no point
before. -/
theorem C3_watchdog_boundary (T0 now : Nat) :
    watchdogFires now ⟨T0, true⟩ = true ↔ T0 + clockStaleTimeout < now := by
  simp [watchdogFires, clockStaleTimeout]
  omega

/-- The upload block never changes the document or the data file, in any branch. -/
theorem postBlock_doc (env : TickEnv) (tNow : Nat) (s : LoopState) :
    (postBlock env tNow s).state.doc = s.doc ∧
    (postBlock env tNow s).state.dataFile = s.dataFile := by
  unfold postBlock
  split_ifs <;> simp [sendData]

/-- The upload block posts either nothing or exactly the whole current document. -/
theorem postBlock_posted (env : TickEnv) (tNow : Nat) (s : LoopState) :
    (postBlock env tNow s).posted = none ∨ (postBlock env tNow s).posted = some s.doc := by
  unfold postBlock
  split_ifs <;> simp [sendData]

/-- An upload block whose timer has not yet elapsed a full interval does nothing. -/
theorem postBlock_not_fired (env : TickEnv) (tNow : Nat) (s : LoopState)
    (h : tNow - s.post_last_time ≤ postDelayTime) :
    postBlock env tNow s = ⟨s, none, none, tNow⟩ := by
  unfold postBlock
  rw [if_neg (by omega)]

/-- Document and data file after a full iteration are those left by the sensor
block. -/
theorem loopStep_doc_dataFile (env : TickEnv) (s : LoopState) :
    (loopStep env s).state.doc = (sensorBlock env s).state.doc ∧
    (loopStep env s).state.dataFile = (sensorBlock env s).state.dataFile :=
  postBlock_doc env (sensorBlock env s).tEnd (sensorBlock env s).state

/-- The pool-faithful sensor block only ever appends to the document. -/
theorem sensorBlockPool_doc (env : TickEnv) (s : LoopState) :
    ∃ t, (sensorBlockPool env s).state.doc = s.doc ++ t := by
  unfold sensorBlockPool docAppend
  split_ifs
  · exact ⟨[⟨(getNtpTime env.ntpArrival).1, env.humidity, env.temperature⟩], rfl⟩
  · exact ⟨[], by simp⟩
  · exact ⟨[], by simp⟩
  · exact ⟨[], by simp⟩

/-- Document and data file after a full pool-faithful iteration are those left
by its sensor block. -/
theorem loopStepPool_doc_dataFile (env : TickEnv) (s : LoopState) :
    (loopStepPool env s).state.doc = (sensorBlockPool env s).state.doc ∧
    (loopStepPool env s).state.dataFile = (sensorBlockPool env s).state.dataFile :=
  postBlock_doc env (sensorBlockPool env s).tEnd (sensorBlockPool env s).state

/-- One pool-faithful iteration only ever appends to the document. -/
theorem loopStepPool_doc_extends (env : TickEnv) (s : LoopState) :
    ∃ t, (loopStepPool env s).state.doc = s.doc ++ t := by
  obtain ⟨t, ht⟩ := sensorBlockPool_doc env s
  exact ⟨t, by rw [(loopStepPool_doc_dataFile env s).1, ht]⟩

/-- Any finite pool-faithful run only ever appends to the document. -/
theorem runLoopPool_doc_extends (envs : List TickEnv) :
    ∀ s : LoopState, ∃ t, (runLoopPool envs s).doc = s.doc ++ t := by
  induction envs with
  | nil => exact fun s => ⟨[], by simp [runLoopPool]⟩
  | cons e rest ih =>
    intro s
    obtain ⟨t1, h1⟩ := loopStepPool_doc_extends e s
    obtain ⟨t2, h2⟩ := ih (loopStepPool e s).state
    refine ⟨t1 ++ t2, ?_⟩
    simp only [runLoopPool]
    rw [h2, h1, List.append_assoc]

/-- C1 counterexample: with no NTP sync (getNtpTime returns 0), a fired
connected sensor tick still appends a sample, timestamp 0, to the document and
the persisted file, and the fired upload timer still POSTs it. -/
theorem C1_counterexample :
    (loopStep envNoClock s0).appended = some ⟨0, .num 55, .num 21⟩ ∧
    (loopStep envNoClock s0).state.doc = [⟨0, .num 55, .num 21⟩] ∧
    (loopStep envNoClock s0).state.dataFile = [⟨0, .num 55, .num 21⟩] ∧
    (loopStep envNoClock s0).posted = some [⟨0, .num 55, .num 21⟩] :=
  ⟨rfl, rfl, rfl, rfl⟩

/-- C1 (amended): the code performs no clock gating: while getNtpTime yields 0
(no sync succeeded), a fired connected sensor tick still appends a reading,
carrying timestamp 0, to the document and the persisted file, and a fired
connected upload tick still POSTs the buffer. -/
theorem C1_no_clock_gating (env : TickEnv) (s : LoopState)
    (hf : env.now - s.last_time > dhtDelayTime)
    (hw1 : env.wifi1 = .connected)
    (hn : env.ntpArrival = none)
    (hw2 : env.wifi2 = .connected)
    (hpf : env.now + 1500 + env.sensorBlockTime - s.post_last_time > postDelayTime) :
    (loopStep env s).appended = some ⟨0, env.humidity, env.temperature⟩ ∧
    (loopStep env s).state.doc = s.doc ++ [⟨0, env.humidity, env.temperature⟩] ∧
    (loopStep env s).state.dataFile = s.doc ++ [⟨0, env.humidity, env.temperature⟩] ∧
    (loopStep env s).posted = some (s.doc ++ [⟨0, env.humidity, env.temperature⟩]) := by
  refine ⟨?_, ?_, ?_, ?_⟩ <;>
    simp [loopStep, sensorBlock, postBlock, sendData, getNtpTime, hf, hw1, hn, hw2,
      wifiAfterReconnect, reconnectCost, hpf]

/-- C1 witness for the amended statement, at the concrete no-sync tick. -/
theorem C1_no_clock_gating_witness :
    (loopStep envNoClock s0).appended = some ⟨0, .num 55, .num 21⟩ ∧
    (loopStep envNoClock s0).state.doc = [⟨0, .num 55, .num 21⟩] ∧
    (loopStep envNoClock s0).state.dataFile = [⟨0, .num 55, .num 21⟩] ∧
    (loopStep envNoClock s0).posted = some [⟨0, .num 55, .num 21⟩] :=
  C1_no_clock_gating envNoClock s0 (by norm_num [envNoClock, s0, dhtDelayTime]) rfl rfl rfl
    (by norm_num [envNoClock, s0, postDelayTime])

/-- A reading already sampled before the upload under scrutiny. -/
def r0 : Reading := ⟨1613555555, .num 50, .num 20⟩

/-- State whose buffer holds one reading, sample timer just reset, upload timer
long elapsed. -/
def sBuf : LoopState := ⟨70000, 0, [r0], [r0]⟩

/-- C2 counterexample: an upload returning HTTP 200 leaves the buffer and the
persisted file exactly as they were: the uploaded reading is still present,
refuting the claim that the buffer is empty after a successful upload. -/
theorem C2_counterexample :
    (loopStep envNoClock sBuf).httpResult = some 200 ∧
    (loopStep envNoClock sBuf).posted = some [r0] ∧
    (loopStep envNoClock sBuf).state.doc = [r0] ∧
    (loopStep envNoClock sBuf).state.dataFile = [r0] :=
  ⟨rfl, rfl, rfl, rfl⟩

/-- C2 (amended): after an upload that returns a positive HTTP code the code
records post_last_time (millis at the end of the block) but clears nothing:
the document and the data file still hold every reading that was just
uploaded. -/
theorem C2_success_keeps_buffer (env : TickEnv) (tNow : Nat) (s : LoopState)
    (hpf : tNow - s.post_last_time > postDelayTime)
    (hw2 : wifiAfterReconnect env.wifi2 = .connected)
    (_hc : 0 < env.httpCode) :
    (postBlock env tNow s).posted = some s.doc ∧
    (postBlock env tNow s).httpResult = some env.httpCode ∧
    (postBlock env tNow s).state.doc = s.doc ∧
    (postBlock env tNow s).state.dataFile = s.dataFile ∧
    (postBlock env tNow s).state.post_last_time =
      tNow + reconnectCost env.wifi2 env.reconnect2 + env.postBlockTime := by
  refine ⟨?_, ?_, ?_, ?_, ?_⟩ <;> simp [postBlock, sendData, hpf, hw2]

/-- C2 witness for the amended statement. -/
theorem C2_success_keeps_buffer_witness :
    (postBlock envNoClock 70000 sBuf).posted = some [r0] ∧
    (postBlock envNoClock 70000 sBuf).httpResult = some 200 ∧
    (postBlock envNoClock 70000 sBuf).state.doc = [r0] ∧
    (postBlock envNoClock 70000 sBuf).state.dataFile = [r0] ∧
    (postBlock envNoClock 70000 sBuf).state.post_last_time = 70000 :=
  C2_success_keeps_buffer envNoClock 70000 sBuf (by norm_num [sBuf, postDelayTime]) rfl
    (by norm_num [envNoClock])

/-- An upload tick whose transport reports failure (negative code). -/
def envUploadFail : TickEnv :=
  ⟨70000, .connected, 0, none, .num 55, .num 21, 0, .connected, 0, -1, 0⟩

/-- C5: when the upload call returns a non-positive code the buffer and the
data file after the call equal their content before it (nothing lost, nothing
duplicated), post_last_time is still advanced to the end of the block, and no
further upload is attempted by a later upload block before a full interval has
elapsed since then. -/
theorem C5_failure_retains_and_rearms (env env2 : TickEnv) (tNow t2 : Nat) (s : LoopState)
    (hpf : tNow - s.post_last_time > postDelayTime)
    (hw2 : wifiAfterReconnect env.wifi2 = .connected)
    (_hc : env.httpCode ≤ 0)
    (h2 : t2 - (tNow + reconnectCost env.wifi2 env.reconnect2 + env.postBlockTime) ≤
      postDelayTime) :
    (postBlock env tNow s).posted = some s.doc ∧
    (postBlock env tNow s).httpResult = some env.httpCode ∧
    (postBlock env tNow s).state.doc = s.doc ∧
    (postBlock env tNow s).state.dataFile = s.dataFile ∧
    (postBlock env tNow s).state.post_last_time =
      tNow + reconnectCost env.wifi2 env.reconnect2 + env.postBlockTime ∧
    (postBlock env2 t2 (postBlock env tNow s).state).posted = none ∧
    (postBlock env2 t2 (postBlock env tNow s).state).httpResult = none ∧
    (postBlock env2 t2 (postBlock env tNow s).state).state = (postBlock env tNow s).state := by
  have hplt : (postBlock env tNow s).state.post_last_time =
      tNow + reconnectCost env.wifi2 env.reconnect2 + env.postBlockTime := by
    simp [postBlock, sendData, hpf, hw2]
  have hrearm := postBlock_not_fired env2 t2 (postBlock env tNow s).state
    (by rw [hplt]; omega)
  refine ⟨?_, ?_, ?_, ?_, hplt, ?_, ?_, ?_⟩
  · simp [postBlock, sendData, hpf, hw2]
  · simp [postBlock, sendData, hpf, hw2]
  · simp [postBlock, sendData, hpf, hw2]
  · simp [postBlock, sendData, hpf, hw2]
  · rw [hrearm]
  · rw [hrearm]
  · rw [hrearm]

/-- C5 witness: concrete failed upload (code -1) at millis 70000, with a later
block at millis 90000 that stays quiet. -/
theorem C5_failure_retains_and_rearms_witness :
    (postBlock envUploadFail 70000 sBuf).posted = some [r0] ∧
    (postBlock envUploadFail 70000 sBuf).httpResult = some (-1) ∧
    (postBlock envUploadFail 70000 sBuf).state.doc = [r0] ∧
    (postBlock envUploadFail 70000 sBuf).state.dataFile = [r0] ∧
    (postBlock envUploadFail 70000 sBuf).state.post_last_time = 70000 ∧
    (postBlock envUploadFail 90000 (postBlock envUploadFail 70000 sBuf).state).posted = none ∧
    (postBlock envUploadFail 90000 (postBlock envUploadFail 70000 sBuf).state).httpResult =
      none ∧
    (postBlock envUploadFail 90000 (postBlock envUploadFail 70000 sBuf).state).state =
      (postBlock envUploadFail 70000 sBuf).state :=
  C5_failure_retains_and_rearms envUploadFail envUploadFail 70000 90000 sBuf
    (by norm_num [sBuf, postDelayTime]) rfl (by norm_num [envUploadFail])
    (by norm_num [envUploadFail, postDelayTime, reconnectCost])

/-- A tick whose NTP response arrives immediately (0 ms into the window). -/
def envImmediateRead : TickEnv :=
  ⟨5000, .connected, 0, some (0, List.replicate 48 0), .num 55, .num 21, 0, .other, 0, 200, 0⟩

/-- C4 counterexample: the sample timer fires at monotonic time 5000 and the
DHT read happens at 5000, i.e. strictly before 5000 + 2000: no sensor settling
delay separates the request from the read. -/
theorem C4_counterexample :
    (loopStep envImmediateRead s0).sensorReadAt = some 5000 ∧ (5000 : Nat) < 5000 + 2000 :=
  ⟨rfl, by norm_num⟩

/-- C4 (amended): the sensor is read in the same loop iteration as the timer
firing, immediately after getNtpTime returns; with WiFi already connected the
read happens at most 1500 ms (the NTP receive window) after the firing check,
hence always strictly before T + 2000 — the ~2 s settling delay of the claim is
never enforced. -/
theorem C4_read_before_settling (env : TickEnv) (s : LoopState)
    (hf : env.now - s.last_time > dhtDelayTime)
    (hw1 : env.wifi1 = .connected) :
    (loopStep env s).sensorReadAt = some (env.now + (getNtpTime env.ntpArrival).2) ∧
    (getNtpTime env.ntpArrival).2 ≤ 1500 ∧
    env.now + (getNtpTime env.ntpArrival).2 < env.now + 2000 := by
  have hb := getNtpTime_wait_le env.ntpArrival
  refine ⟨?_, hb, by omega⟩
  simp [loopStep, sensorBlock, hf, hw1, wifiAfterReconnect, reconnectCost]

/-- C4 witness for the amended statement. -/
theorem C4_read_before_settling_witness :
    (loopStep envImmediateRead s0).sensorReadAt =
      some (5000 + (getNtpTime envImmediateRead.ntpArrival).2) ∧
    (getNtpTime envImmediateRead.ntpArrival).2 ≤ 1500 ∧
    5000 + (getNtpTime envImmediateRead.ntpArrival).2 < 5000 + 2000 :=
  C4_read_before_settling envImmediateRead s0 (by norm_num [envImmediateRead, s0, dhtDelayTime])
    rfl

/-- A tick on which the DHT humidity read fails (returns the NaN marker). -/
def envNanRead : TickEnv :=
  ⟨70000, .connected, 0, none, .nan, .num 21, 0, .connected, 0, 200, 0⟩

/-- C6 counterexample: a reading whose humidity carries the failed-read NaN
marker is appended to the document, written to the persisted file, and uploaded
in the POST payload. -/
theorem C6_counterexample :
    (loopStep envNanRead s0).appended = some ⟨0, .nan, .num 21⟩ ∧
    (loopStep envNanRead s0).state.doc = [⟨0, .nan, .num 21⟩] ∧
    (loopStep envNanRead s0).state.dataFile = [⟨0, .nan, .num 21⟩] ∧
    (loopStep envNanRead s0).posted = some [⟨0, .nan, .num 21⟩] :=
  ⟨rfl, rfl, rfl, rfl⟩

/-- C6 (amended): the code has no failed-read guard: a fired connected sensor
tick stores whatever values the DHT returned — numeric or the NaN marker —
into the document and the persisted file. -/
theorem C6_no_nan_guard (env : TickEnv) (s : LoopState)
    (hf : env.now - s.last_time > dhtDelayTime)
    (hw1 : wifiAfterReconnect env.wifi1 = .connected) :
    (loopStep env s).appended =
      some ⟨(getNtpTime env.ntpArrival).1, env.humidity, env.temperature⟩ ∧
    (loopStep env s).state.doc =
      s.doc ++ [⟨(getNtpTime env.ntpArrival).1, env.humidity, env.temperature⟩] ∧
    (loopStep env s).state.dataFile = (loopStep env s).state.doc := by
  have hd := loopStep_doc_dataFile env s
  rw [hd.1, hd.2]
  refine ⟨?_, ?_, ?_⟩ <;> simp [loopStep, sensorBlock, hf, hw1]

/-- C6 witness for the amended statement, at the concrete NaN tick. -/
theorem C6_no_nan_guard_witness :
    (loopStep envNanRead s0).appended = some ⟨0, .nan, .num 21⟩ ∧
    (loopStep envNanRead s0).state.doc = [⟨0, .nan, .num 21⟩] ∧
    (loopStep envNanRead s0).state.dataFile = (loopStep envNanRead s0).state.doc :=
  C6_no_nan_guard envNanRead s0 (by norm_num [envNanRead, s0, dhtDelayTime]) rfl

/-- State with one buffered reading and both timers at zero (long elapsed). -/
def sOld : LoopState := ⟨0, 0, [r0], [r0]⟩

/-- A connected sensor tick at monotonic time t with no NTP answer and a quiet
upload side (WiFi status other at the second check). -/
def envAt (t : Nat) : TickEnv :=
  ⟨t, .connected, 0, none, .num 55, .num 21, 0, .other, 0, 200, 0⟩

/-- Thirty-two connected sensor ticks, 10 s apart, enough to fill the pool. -/
def fillEnvs : List TickEnv := (List.range 32).map (fun k => envAt (10000 * (k + 1)))

/-- The state after the pool-filling run: 32 stored readings, pool exactly full. -/
def sFull : LoopState := runLoopPool fillEnvs s0

/-- C9 counterexample: after 32 connected sensor ticks the 2048-byte pool is
full; the 33rd tick still fires and reaches the connected branch, yet appends
nothing — the document keeps 32 objects while 33 readings were sampled, so not
every payload contains all readings accumulated since boot. -/
theorem C9_counterexample :
    sFull.doc.length = 32 ∧
    (envAt 330000).now - sFull.last_time > dhtDelayTime ∧
    (envAt 330000).wifi1 = .connected ∧
    (loopStepPool (envAt 330000) sFull).appended = none ∧
    (loopStepPool (envAt 330000) sFull).state.doc = sFull.doc ∧
    (loopStepPool (envAt 330000) sFull).state.doc.length = 32 := by
  refine ⟨by decide, by decide, rfl, by decide, by decide, by decide⟩

/-- C9 (amended): growth of the JSON document is monotone but pool-bounded: a
fired connected sensor tick appends exactly one object while fewer than
docCapacity (32) readings are stored, and appends nothing once the pool is
exhausted; the file rewrite and the POST payload, when they happen, carry the
whole current document; and no iteration, nor any finite run — successful
uploads included — ever removes an object.  Payloads therefore contain every
successfully stored reading, not every reading sampled since boot. -/
theorem C9_pool_bounded_growth (env : TickEnv) (s : LoopState) (envs : List TickEnv)
    (hf : env.now - s.last_time > dhtDelayTime)
    (hw1 : wifiAfterReconnect env.wifi1 = .connected) :
    (s.doc.length < docCapacity →
      (loopStepPool env s).state.doc =
        s.doc ++ [⟨(getNtpTime env.ntpArrival).1, env.humidity, env.temperature⟩] ∧
      (loopStepPool env s).appended =
        some ⟨(getNtpTime env.ntpArrival).1, env.humidity, env.temperature⟩) ∧
    (docCapacity ≤ s.doc.length →
      (loopStepPool env s).state.doc = s.doc ∧
      (loopStepPool env s).appended = none) ∧
    ((loopStepPool env s).fileWritten = none ∨
      (loopStepPool env s).fileWritten = some ((loopStepPool env s).state.doc)) ∧
    ((loopStepPool env s).posted = none ∨
      (loopStepPool env s).posted = some ((loopStepPool env s).state.doc)) ∧
    (∃ t, (loopStepPool env s).state.doc = s.doc ++ t) ∧
    (∃ t, (runLoopPool envs s).doc = s.doc ++ t) := by
  have hd := loopStepPool_doc_dataFile env s
  refine ⟨?_, ?_, ?_, ?_, loopStepPool_doc_extends env s, runLoopPool_doc_extends envs s⟩
  · intro hlt
    rw [hd.1]
    constructor <;> simp [loopStepPool, sensorBlockPool, docAppend, hf, hw1, hlt]
  · intro hge
    have hnlt : ¬s.doc.length < docCapacity := by omega
    rw [hd.1]
    constructor <;> simp [loopStepPool, sensorBlockPool, docAppend, hf, hw1, hnlt]
  · rw [hd.1]
    right
    simp [loopStepPool, sensorBlockPool, hf, hw1]
  · rw [hd.1]
    have hp := postBlock_posted env (sensorBlockPool env s).tEnd (sensorBlockPool env s).state
    exact hp

/-- C9 witness for the amended statement: the append succeeds at the empty
state and fails at the full one, and a run from the empty state only extends. -/
theorem C9_pool_bounded_growth_witness :
    (loopStepPool (envAt 10000) s0).state.doc = [⟨0, .num 55, .num 21⟩] ∧
    (loopStepPool (envAt 10000) s0).appended = some ⟨0, .num 55, .num 21⟩ ∧
    (loopStepPool (envAt 330000) sFull).state.doc = sFull.doc ∧
    (loopStepPool (envAt 330000) sFull).appended = none ∧
    (∃ t, (runLoopPool [envAt 10000] s0).doc = ([] : List Reading) ++ t) := by
  have h1 := C9_pool_bounded_growth (envAt 10000) s0 [envAt 10000]
    (by decide) rfl
  have h2 := C9_pool_bounded_growth (envAt 330000) sFull []
    (by decide) rfl
  have ha := h1.1 (by decide)
  have hb := h2.2.1 (by decide)
  exact ⟨ha.1, ha.2, hb.1, hb.2, h1.2.2.2.2.2⟩

/-- A tick on which both timers fire but WiFi reports a status that is neither
connected nor disconnected (e.g. WL_CONNECT_FAILED): initWifi is not invoked —
it only runs on WL_DISCONNECTED, and when it does run it blocks until
connected — so both action branches are skipped. -/
def envWifiDown : TickEnv :=
  ⟨70000, .other, 3, some (0, List.replicate 48 0), .num 55, .num 21, 2, .other, 4, 200, 5⟩

/-- C10: when the sample and upload timers fire while WiFi is not connected
after the reconnect attempt (only reachable with a status other than
WL_DISCONNECTED, since initWifi blocks until connected), the whole iteration
skips both actions and the only state change is resetting both timers to the
current millis(): no sensor read, no NTP wait, no append, no file write, no
POST. -/
theorem C10_skipped_tick_frame (env : TickEnv) (s : LoopState)
    (hf1 : env.now - s.last_time > dhtDelayTime)
    (hw1 : env.wifi1 = .other)
    (hf2 : env.now - s.post_last_time > postDelayTime)
    (hw2 : env.wifi2 = .other) :
    (loopStep env s).state = ⟨env.now, env.now, s.doc, s.dataFile⟩ ∧
    (loopStep env s).appended = none ∧
    (loopStep env s).fileWritten = none ∧
    (loopStep env s).sensorReadAt = none ∧
    (loopStep env s).ntpWait = none ∧
    (loopStep env s).posted = none ∧
    (loopStep env s).httpResult = none := by
  refine ⟨?_, ?_, ?_, ?_, ?_, ?_, ?_⟩ <;>
    simp [loopStep, sensorBlock, postBlock, hf1, hw1, hf2, hw2,
      wifiAfterReconnect, reconnectCost]

/-- C10 witness at a concrete degraded-WiFi tick. -/
theorem C10_skipped_tick_frame_witness :
    (loopStep envWifiDown sOld).state = ⟨70000, 70000, [r0], [r0]⟩ ∧
    (loopStep envWifiDown sOld).appended = none ∧
    (loopStep envWifiDown sOld).fileWritten = none ∧
    (loopStep envWifiDown sOld).sensorReadAt = none ∧
    (loopStep envWifiDown sOld).ntpWait = none ∧
    (loopStep envWifiDown sOld).posted = none ∧
    (loopStep envWifiDown sOld).httpResult = none :=
  C10_skipped_tick_frame envWifiDown sOld (by norm_num [envWifiDown, sOld, dhtDelayTime]) rfl
    (by norm_num [envWifiDown, sOld, postDelayTime]) rfl

end MonitoringESP
